import Mathlib

/-!
Verification of the DecidePlease deliberation engine against its
natural-language specification.

The definitions below are a shallow embedding of the Python source
(`backend/council.py`, `backend/main.py`, `backend/storage_pg.py`,
`backend/config.py`).  Strings are modelled as `List Char` so that the
character-level scanning done by the source (prefix tests, substring
containment, regular-expression style scans) is executable and
kernel-reducible.  Each definition carries a comment naming the Python
function it embeds.
-/

namespace DecidePlease

/-! ## Python string primitives -/

/-- Characters treated as whitespace by Python `str.strip()` /
regex `\s`: space, tab, newline, carriage return, vertical tab, form feed. -/
def isPyWS (c : Char) : Bool :=
  c == ' ' || c == '\t' || c == '\n' || c == '\r' || c == '\x0b' || c == '\x0c'

/-- Python `str.strip()`: drop whitespace from both ends. -/
def pyStrip (l : List Char) : List Char :=
  ((l.dropWhile isPyWS).reverse.dropWhile isPyWS).reverse

/-- Python `str.lower()` (ASCII fragment, which is all the source feeds it). -/
def toLowerL (l : List Char) : List Char :=
  l.map Char.toLower

/-- Python `needle in hay` (substring containment). -/
def containsSub (needle : List Char) : List Char → Bool
  | [] => needle.isEmpty
  | c :: rest => needle.isPrefixOf (c :: rest) || containsSub needle rest

/-- One step of Python `str.split(sep)`: `skip` counts separator characters
still to be jumped over, `acc` holds the current part reversed. -/
def pySplitAux (sep : List Char) : Nat → List Char → List Char → List (List Char)
  | _, acc, [] => [acc.reverse]
  | skip, acc, c :: rest =>
    if skip ≠ 0 then pySplitAux sep (skip - 1) acc rest
    else if sep.isPrefixOf (c :: rest) then
      acc.reverse :: pySplitAux sep (sep.length - 1) [] rest
    else pySplitAux sep 0 (c :: acc) rest

/-- Python `str.split(sep)` for a non-empty separator. -/
def pySplit (sep l : List Char) : List (List Char) :=
  pySplitAux sep 0 [] l

/-! ## Credit ledger (storage_pg.py).

The ledger is the `users(id, credits)` table.  We model a table as an
association list and the two SQL statements used by the ledger as list
transformations, so that `reserve_credits_atomic` and `refund_credits` are
the same compositions of statements as in the source. -/

/-- A `users` table: rows of (id, credits). -/
def UserTable := List (String × Nat)

instance : DecidableEq UserTable := by
  unfold UserTable
  infer_instance

/-- `UPDATE users SET credits = credits - n WHERE id = uid AND credits >= n
RETURNING credits`: the updated table together with the returned row, if any
(embeds the statement inside `reserve_credits_atomic`). -/
def sqlReserveUpdate (t : UserTable) (uid : String) (n : Nat) :
    UserTable × Option Nat :=
  match t with
  | [] => ([], none)
  | (u, c) :: rest =>
    if u = uid ∧ n ≤ c then ((u, c - n) :: rest, some (c - n))
    else
      let (rest2, r) := sqlReserveUpdate rest uid n
      ((u, c) :: rest2, r)

/-- `SELECT credits FROM users WHERE id = uid` (first matching row). -/
def sqlSelectCredits (t : UserTable) (uid : String) : Option Nat :=
  match t with
  | [] => none
  | (u, c) :: rest => if u = uid then some c else sqlSelectCredits rest uid

/-- `UPDATE users SET credits = credits + n WHERE id = uid RETURNING credits`
(embeds the statement inside `refund_credits`). -/
def sqlRefundUpdate (t : UserTable) (uid : String) (n : Nat) :
    UserTable × Option Nat :=
  match t with
  | [] => ([], none)
  | (u, c) :: rest =>
    if u = uid then ((u, c + n) :: rest, some (c + n))
    else
      let (rest2, r) := sqlRefundUpdate rest uid n
      ((u, c) :: rest2, r)

/-- Typed result of `reserve_credits_atomic`: either the remaining credits or
`InsufficientCreditsError(required, available)`. -/
inductive ReserveResult where
  | ok (remaining : Nat)
  | insufficient (required : Nat) (available : Nat)
  deriving DecidableEq, Repr

/-- `storage_pg.reserve_credits_atomic`: run the conditional update; if a row
came back return its credits, otherwise select the current credits (defaulting
to 0 as `current or 0` does) and fail with Insufficient. -/
def reserve_credits_atomic (t : UserTable) (uid : String) (n : Nat) :
    UserTable × ReserveResult :=
  let (t2, r) := sqlReserveUpdate t uid n
  match r with
  | some remaining => (t2, .ok remaining)
  | none =>
    let current := (sqlSelectCredits t2 uid).getD 0
    (t2, .insufficient n current)

/-- `storage_pg.refund_credits`: unconditional add, returning the new balance
(0 when no row matched, as `row["credits"] if row else 0` does). -/
def refund_credits (t : UserTable) (uid : String) (n : Nat) :
    UserTable × Nat :=
  let (t2, r) := sqlRefundUpdate t uid n
  (t2, r.getD 0)

/-! ## Ranking parser (council.py `parse_ranking_from_text`).

The source uses two regular expressions: `Response [A-Z]` and
`\d+\.\s*Response [A-Z]`, with `re.findall` (leftmost, non-overlapping)
and `re.search` (first occurrence).  We embed the two patterns as
character-level matchers.  For `\d+` and `\s*` the greedy maximal run is
equivalent to the regex: backtracking to a shorter run makes the next
literal (`.` resp. `R`) face a digit resp. whitespace character, which
always fails, so only the maximal run can succeed. -/

/-- Match the pattern `Response [A-Z]` at the head of the list, returning the
10 matched characters. -/
def respMatch : List Char → Option (List Char)
  | c0 :: c1 :: c2 :: c3 :: c4 :: c5 :: c6 :: c7 :: c8 :: c9 :: _ =>
    if (c0 == 'R') && (c1 == 'e') && (c2 == 's') && (c3 == 'p') && (c4 == 'o') &&
        (c5 == 'n') && (c6 == 's') && (c7 == 'e') && (c8 == ' ') && c9.isUpper then
      some [c0, c1, c2, c3, c4, c5, c6, c7, c8, c9]
    else none
  | _ => none

/-- `re.search(r'Response [A-Z]', ...)`: first occurrence, scanning left to
right. -/
def searchResp : List Char → Option (List Char)
  | [] => none
  | c :: rest =>
    match respMatch (c :: rest) with
    | some m => some m
    | none => searchResp rest

/-- `re.findall(r'Response [A-Z]', ...)`: leftmost non-overlapping matches.
`skip` counts characters of the current match still to be jumped over. -/
def findRespAux (skip : Nat) : List Char → List (List Char)
  | [] => []
  | c :: rest =>
    if skip ≠ 0 then findRespAux (skip - 1) rest
    else
      match respMatch (c :: rest) with
      | some m => m :: findRespAux (m.length - 1) rest
      | none => findRespAux 0 rest

/-- All `Response [A-Z]` matches in order. -/
def findResp (l : List Char) : List (List Char) :=
  findRespAux 0 l

/-- Match the pattern `\d+\.\s*Response [A-Z]` at the head of the list,
returning the matched characters. -/
def numberedMatch (l : List Char) : Option (List Char) :=
  let digits := l.takeWhile Char.isDigit
  if digits.isEmpty then none
  else
    match l.drop digits.length with
    | '.' :: r2 =>
      let ws := r2.takeWhile isPyWS
      match respMatch (r2.drop ws.length) with
      | some m => some (digits ++ '.' :: ws ++ m)
      | none => none
    | _ => none

/-- `re.findall(r'\d+\.\s*Response [A-Z]', ...)`: leftmost non-overlapping
matches of the numbered pattern. -/
def findNumberedAux (skip : Nat) : List Char → List (List Char)
  | [] => []
  | c :: rest =>
    if skip ≠ 0 then findNumberedAux (skip - 1) rest
    else
      match numberedMatch (c :: rest) with
      | some m => m :: findNumberedAux (m.length - 1) rest
      | none => findNumberedAux 0 rest

/-- All numbered-ranking matches in order. -/
def findNumbered (l : List Char) : List (List Char) :=
  findNumberedAux 0 l

/-- The literal header `FINAL RANKING:`. -/
def finalRankingHeader : List Char :=
  ['F', 'I', 'N', 'A', 'L', ' ', 'R', 'A', 'N', 'K', 'I', 'N', 'G', ':']

/-- `council.parse_ranking_from_text`.  If the header occurs, split on it and
work in `parts[1]` (the text between the first two occurrences): first the
numbered matches (each reduced to its `Response X` part, which every numbered
match contains by construction, so `re.search(...).group()` is `searchResp`);
if there are none, every `Response X` occurrence of the section.  With no
header (or fewer than two split parts), every `Response X` occurrence of the
whole text. -/
def parse_ranking_from_text (ranking_text : List Char) : List (List Char) :=
  if containsSub finalRankingHeader ranking_text then
    let parts := pySplit finalRankingHeader ranking_text
    if 2 ≤ parts.length then
      let ranking_section := parts.getD 1 []
      let numbered := findNumbered ranking_section
      if ¬numbered.isEmpty then numbered.filterMap searchResp
      else findResp ranking_section
    else findResp ranking_text
  else findResp ranking_text

/-! ## Aggregate rankings (council.py `calculate_aggregate_rankings`). -/

/-- Association-list lookup, as Python `label_to_model[label]`. -/
def lookupAssoc (m : List (List Char × List Char)) (k : List Char) :
    Option (List Char) :=
  match m with
  | [] => none
  | (k0, v) :: rest => if k0 = k then some v else lookupAssoc rest k

/-- `model_positions[model_name].append(position)` on an insertion-ordered
association list (a `defaultdict(list)` iterates in insertion order). -/
def addPos : List (List Char × List Nat) → List Char → Nat →
    List (List Char × List Nat)
  | [], k, p => [(k, [p])]
  | (k0, ps) :: rest, k, p =>
    if k0 = k then (k0, ps ++ [p]) :: rest else (k0, ps) :: addPos rest k p

/-- The inner loop `for position, label in enumerate(parsed_ranking, start=1)`:
record the 1-based position of every label that is a key of the mapping. -/
def recordParsedAux (ltm : List (List Char × List Char)) :
    Nat → List (List Char × List Nat) → List (List Char) →
    List (List Char × List Nat)
  | _, acc, [] => acc
  | pos, acc, lab :: rest =>
    match lookupAssoc ltm lab with
    | some model => recordParsedAux ltm (pos + 1) (addPos acc model pos) rest
    | none => recordParsedAux ltm (pos + 1) acc rest

/-- Python `round(x, 2)` on the averages.  Python rounds half to even on
floats; the embedding rounds half up, which agrees whenever `x*100` is not a
midpoint (the averages in the claims are thirds, never midpoints). -/
def roundPy2 (q : ℚ) : ℚ :=
  (⌊q * 100 + 1 / 2⌋ : ℚ) / 100

/-- One aggregate entry: `{"model", "average_rank", "rankings_count"}`. -/
structure AggEntry where
  model : List Char
  average_rank : ℚ
  rankings_count : Nat
  deriving DecidableEq, Repr

/-- Insert an element after all existing entries with `average_rank ≤` its
own.  Folding this over the list is exactly a stable ascending sort, which is
what Python's stable `list.sort(key=...)` performs. -/
def insertByRank (e : AggEntry) : List AggEntry → List AggEntry
  | [] => [e]
  | f :: fs =>
    if f.average_rank ≤ e.average_rank then f :: insertByRank e fs
    else e :: f :: fs

/-- `aggregate.sort(key=lambda x: x['average_rank'])` (stable, ascending). -/
def sortByRank (l : List AggEntry) : List AggEntry :=
  l.foldl (fun acc e => insertByRank e acc) []

/-- `council.calculate_aggregate_rankings`: re-parse each rater's ranking
text, record 1-based positions per model, average (skipping models with no
positions, as `if positions:` does), round to 2 decimals and sort ascending by
average rank. -/
def calculate_aggregate_rankings (stage2_rankings : List (List Char))
    (label_to_model : List (List Char × List Char)) : List AggEntry :=
  let positions := stage2_rankings.foldl
    (fun acc text =>
      recordParsedAux label_to_model 1 acc (parse_ranking_from_text text))
    []
  let aggregate := positions.filterMap
    (fun mp =>
      if mp.2.isEmpty then none
      else some ⟨mp.1, roundPy2 ((mp.2.sum : ℚ) / mp.2.length), mp.2.length⟩)
  sortByRank aggregate

/-! ## Echo detection in stage 3 (council.py `stage3_synthesize_final`,
lines 428-456: the computation of `echo_detected` including the
withdrawal logic, before any salvage or retry is attempted). -/

/-- Shorthand for string literals as character lists. -/
def strL (s : String) : List Char := s.data

/-- The `synthesis_indicators` list of `stage3_synthesize_final`. -/
def synthesisIndicators : List (List Char) :=
  [strL "based on", strL "analysis", strL "recommend", strL "council",
   strL "synthesis", strL "conclusion", strL "verdict", strL "assessment",
   strL "evaluation", strL "##", strL "**", strL "1.", strL "2.",
   strL "first", strL "second", strL "however", strL "therefore",
   strL "critique"]

/-- `query_start = user_query[:150].strip()`. -/
def queryStart (user_query : List Char) : List Char :=
  pyStrip (user_query.take 150)

/-- The direct-prefix echo test:
`content[:300].strip().startswith(query_start[:80])`. -/
def echoPrefixMatch (user_query content : List Char) : Bool :=
  ((queryStart user_query).take 80).isPrefixOf (pyStrip (content.take 300))

/-- `has_synthesis_markers = any(ind in content[:500].lower() for ind in
synthesis_indicators)`. -/
def hasSynthesisMarkers (content : List Char) : Bool :=
  synthesisIndicators.any (fun ind => containsSub ind (toLowerL (content.take 500)))

/-- The final value of `echo_detected` after the marker-based withdrawal:
the flag is set only for queries longer than 100 characters whose stripped
prefix the response starts with, and it is cleared again only when synthesis
markers are present AND `len(content) > len(query_start) + 500`. -/
def echoDetectedAfterWithdrawal (user_query content : List Char) : Bool :=
  if 100 < user_query.length then
    let e0 := echoPrefixMatch user_query content
    if e0 && hasSynthesisMarkers content then
      if (queryStart user_query).length + 500 < content.length then false else e0
    else e0
  else false

/-! ## Verdict summary (council.py `_extract_verdict_summary` and the
`verdict_summary` field of `build_context_summary`). -/

/-- The verdict-like header keywords. -/
def verdictKeywords : List (List Char) :=
  [strL "verdict", strL "recommendation", strL "conclusion",
   strL "final answer", strL "summary"]

/-- `any(kw in line.lower().strip() for kw in [...])`. -/
def lineHasKeyword (line : List Char) : Bool :=
  verdictKeywords.any (fun kw => containsSub kw (pyStrip (toLowerL line)))

/-- `line.startswith('#') or (line.strip() and line.strip()[0].isdigit() and
'.' in line[:3])` — the major-section-header test that stops capture. -/
def isHeaderBreak (line : List Char) : Bool :=
  (['#'].isPrefixOf line) ||
    (let st := pyStrip line
     ¬st.isEmpty && (st.headD ' ').isDigit && containsSub ['.'] (line.take 3))

/-- The capture loop of `_extract_verdict_summary`: keyword lines start (or
continue) the verdict section and are captured; inside the section a header
line breaks out once more than 2 lines are captured, otherwise every line is
captured. -/
def verdictLoop : List (List Char) → Bool → List (List Char) → List (List Char)
  | [], _, acc => acc
  | line :: rest, inSec, acc =>
    if lineHasKeyword line then verdictLoop rest true (acc ++ [line])
    else if inSec then
      if isHeaderBreak line ∧ 2 < acc.length then acc
      else verdictLoop rest true (acc ++ [line])
    else verdictLoop rest false acc

/-- `' '.join(...)`. -/
def joinSpace (lines : List (List Char)) : List Char :=
  List.intercalate [' '] lines

/-- `council._extract_verdict_summary` with its `max_chars` parameter
(call sites use the default 800). -/
def extract_verdict_summary (stage3_response : List Char) (maxChars : Nat) :
    List Char :=
  let lines := pySplit ['\n'] stage3_response
  let verdict_lines := verdictLoop lines false []
  if ¬verdict_lines.isEmpty ∧ 50 < (joinSpace verdict_lines).length then
    let summary := pyStrip (joinSpace verdict_lines)
    if maxChars < summary.length then summary.take maxChars ++ strL "..."
    else summary
  else if maxChars < stage3_response.length then
    stage3_response.take maxChars ++ strL "..."
  else stage3_response

/-- The `verdict_summary` field of the context-summary packet:
`build_context_summary` sets it to
`_extract_verdict_summary(stage3_result.get("response", ""))`. -/
def context_summary_verdict (stage3_response : List Char) : List Char :=
  extract_verdict_summary stage3_response 800

/-! ## Run-mode configuration (config.py) and mode normalization. -/

/-- One entry of `RUN_MODES`. -/
structure ModeConfig where
  enable_peer_review : Bool
  enable_cross_review : Bool
  label : String
  decision_makers : List String
  moderator_model : String
  context_mode : String
  credit_cost : Nat
  deriving DecidableEq, Repr

/-- `config.HAIKU_TIER`. -/
def HAIKU_TIER : List String :=
  ["openai/gpt-4o-mini", "anthropic/claude-3-haiku", "google/gemini-2.0-flash-exp",
   "x-ai/grok-2-mini", "deepseek/deepseek-chat"]

/-- `config.PREMIUM_TIER`. -/
def PREMIUM_TIER : List String :=
  ["openai/gpt-5.2", "anthropic/claude-opus-4.5", "google/gemini-3-pro-preview",
   "x-ai/grok-4.1-fast", "deepseek/deepseek-v3.2"]

/-- `config.RUN_MODES` as an ordered key/value list. -/
def RUN_MODES : List (String × ModeConfig) :=
  [("quick_decision",
    { enable_peer_review := false, enable_cross_review := false,
      label := "Quick Decision", decision_makers := HAIKU_TIER,
      moderator_model := "anthropic/claude-sonnet-4.5",
      context_mode := "minimal", credit_cost := 1 }),
   ("decide_please",
    { enable_peer_review := true, enable_cross_review := false,
      label := "Decide Please", decision_makers := PREMIUM_TIER,
      moderator_model := "anthropic/claude-sonnet-4.5",
      context_mode := "standard", credit_cost := 2 }),
   ("decide_pretty_please",
    { enable_peer_review := true, enable_cross_review := true,
      label := "Decide Pretty Please", decision_makers := PREMIUM_TIER,
      moderator_model := "anthropic/claude-sonnet-4.5",
      context_mode := "full", credit_cost := 4 })]

/-- `config.LEGACY_MODE_MAPPING`. -/
def LEGACY_MODE_MAPPING : List (String × String) :=
  [("quick", "quick_decision"), ("standard", "decide_please"),
   ("extra_care", "decide_pretty_please")]

/-- Dictionary lookup on an ordered key/value list. -/
def lookupKV {α : Type} (m : List (String × α)) (k : String) : Option α :=
  match m with
  | [] => none
  | (k0, v) :: rest => if k0 = k then some v else lookupKV rest k

/-- The mode normalization performed identically by
`main.send_message_stream` (lines 1558-1564), `main._process_decision_request`
(lines 1267-1274) and `council.run_council_with_mode` (lines 892-899): map a
legacy alias to its new name, then silently fall back to `decide_please` for
anything that is not a `RUN_MODES` key. -/
def normalizeMode (mode : String) : String :=
  let m1 := match lookupKV LEGACY_MODE_MAPPING mode with
    | some v => v
    | none => mode
  if (lookupKV RUN_MODES m1).isSome then m1 else "decide_please"

/-- `mode_config = RUN_MODES[mode]` after normalization (total because
`normalizeMode` always lands on a key; the `getD` fallback is never hit). -/
def modeConfigOf (mode : String) : ModeConfig :=
  (lookupKV RUN_MODES (normalizeMode mode)).getD
    { enable_peer_review := true, enable_cross_review := false,
      label := "Decide Please", decision_makers := PREMIUM_TIER,
      moderator_model := "anthropic/claude-sonnet-4.5",
      context_mode := "standard", credit_cost := 2 }

/-- `config.FILE_UPLOAD_CREDIT_COST`. -/
def FILE_UPLOAD_CREDIT_COST : Nat := 1

/-! ## Credit flow of one streamed request (main.py `send_message_stream`
plus the error path of `_process_decision_request`).

`send_message_stream` reserves `mode_config['credit_cost'] +
FILE_UPLOAD_CREDIT_COST` (the latter only with attachments) unless the
caller has unlimited credits; the background task's `except` handler always
refunds exactly `mode_config['credit_cost']` to the user, whether or not the
reservation was bypassed and regardless of any attachment surcharge. -/

/-- Outcome of a streamed request for the owner's ledger row. -/
inductive SubmitOutcome where
  | insufficient (required : Nat) (available : Nat)
  | ran (finalBalance : Nat)
  deriving DecidableEq, Repr

/-- The ledger interactions of one request by user `uid` whose row holds
`balance` credits: the reservation in `send_message_stream`, then — when the
background task hits the FAILED path (`fails = true`) — the refund in
`_process_decision_request`'s exception handler. -/
def submit_credit_flow (uid : String) (balance : Nat)
    (has_unlimited has_files : Bool) (mode : String) (fails : Bool) :
    SubmitOutcome :=
  let cfg := modeConfigOf mode
  let credit_cost := cfg.credit_cost +
    (if has_files then FILE_UPLOAD_CREDIT_COST else 0)
  let t0 : UserTable := [(uid, balance)]
  match (if has_unlimited then (t0, ReserveResult.ok 0)
         else reserve_credits_atomic t0 uid credit_cost) with
  | (_, .insufficient r a) => .insufficient r a
  | (t1, .ok _) =>
    let t2 := if fails then (refund_credits t1 uid cfg.credit_cost).1 else t1
    .ran ((sqlSelectCredits t2 uid).getD 0)

/-! ## Transcript store (storage_pg.py).

A `messages` row; `created_at` order is the list order of the store.  The
stage columns hold `json.dumps(...)` blobs, modelled as opaque strings;
`none` is SQL NULL.  (`json.dumps` never yields NULL, so every stage value
written through it is `some`.) -/

structure MsgRow where
  id : Nat
  role : String
  content : Option String
  stage1 : Option String
  stage1_5 : Option String
  stage2 : Option String
  stage3 : Option String
  mode : Option String
  is_rerun : Bool
  rerun_input : Option String
  revision_number : Nat
  parent_message_id : Option Nat
  deriving DecidableEq, Repr

/-- The `messages` table of one conversation, plus the id sequence. -/
structure Store where
  nextId : Nat
  msgs : List MsgRow
  deriving DecidableEq, Repr

/-- An all-NULL row template. -/
def blankRow (id : Nat) (role : String) : MsgRow :=
  { id := id, role := role, content := none, stage1 := none, stage1_5 := none,
    stage2 := none, stage3 := none, mode := none, is_rerun := false,
    rerun_input := none, revision_number := 0, parent_message_id := none }

/-- `storage_pg.add_user_message`: INSERT a user row. -/
def store_add_user_message (st : Store) (content : String) : Store :=
  { nextId := st.nextId + 1,
    msgs := st.msgs ++ [{ blankRow st.nextId "user" with content := some content }] }

/-- `storage_pg.add_assistant_message`: INSERT an assistant row with stage1,
stage2, stage3 (used by the non-streaming `send_message` endpoint). -/
def store_add_assistant_message (st : Store) (s1 s2 s3 : String) : Store :=
  { nextId := st.nextId + 1,
    msgs := st.msgs ++ [{ blankRow st.nextId "assistant" with
      stage1 := some s1, stage2 := some s2, stage3 := some s3 }] }

/-- `storage_pg.create_pending_assistant_message`: INSERT an assistant row
with every stage column NULL, RETURNING its id. -/
def store_create_pending_assistant_message (st : Store) : Store × Nat :=
  ({ nextId := st.nextId + 1,
     msgs := st.msgs ++ [blankRow st.nextId "assistant"] }, st.nextId)

/-- `storage_pg.update_assistant_message_stage`: UPDATE one stage column of
the row with the given id (stage names outside the whitelist raise and touch
nothing; the four valid names each update their column). -/
def store_update_assistant_message_stage (st : Store) (message_id : Nat)
    (stage : String) (data : String) : Store :=
  { st with msgs := st.msgs.map (fun m =>
      if m.id = message_id then
        if stage = "stage1" then { m with stage1 := some data }
        else if stage = "stage1_5" then { m with stage1_5 := some data }
        else if stage = "stage2" then { m with stage2 := some data }
        else if stage = "stage3" then { m with stage3 := some data }
        else m
      else m) }

/-- `SELECT COALESCE(MAX(revision_number), 0) + 1 FROM messages WHERE
parent_message_id = $1 OR id = $1`. -/
def nextRevision (st : Store) (parent : Nat) : Nat :=
  ((st.msgs.filter (fun m => m.parent_message_id = some parent ∨ m.id = parent)).map
    (fun m => m.revision_number)).foldl max 0 + 1

/-- `storage_pg.add_assistant_message_complete`: the single-transaction
INSERT of a fully formed assistant row (revision number computed for reruns),
RETURNING its id. -/
def store_add_assistant_message_complete (st : Store) (s1 : String)
    (s15 : Option String) (s2 s3 : String) (mode : String) (is_rerun : Bool)
    (rerun_input : Option String) (parent_message_id : Option Nat) :
    Store × Nat :=
  let revision := match parent_message_id with
    | some p => if is_rerun then nextRevision st p else 0
    | none => 0
  ({ nextId := st.nextId + 1,
     msgs := st.msgs ++ [{ blankRow st.nextId "assistant" with
       stage1 := some s1, stage1_5 := s15, stage2 := some s2,
       stage3 := some s3, mode := some mode, is_rerun := is_rerun,
       rerun_input := rerun_input, revision_number := revision,
       parent_message_id := parent_message_id }] }, st.nextId)

/-- `storage_pg.cleanup_incomplete_messages`: DELETE every assistant row with
NULL stage3, returning the count. -/
def store_cleanup_incomplete_messages (st : Store) : Store × Nat :=
  let keep := st.msgs.filter (fun m => ¬(m.role = "assistant" ∧ m.stage3 = none))
  ({ st with msgs := keep }, st.msgs.length - keep.length)

/-- The message list returned by `storage_pg.get_conversation`: user rows
always; assistant rows unless stage1, stage2 and stage3 are all NULL
(stage1_5 is not consulted by the filter). -/
def store_get_conversation_messages (st : Store) : List MsgRow :=
  st.msgs.filter (fun m =>
    m.role = "user" ∨
      ¬(m.stage1 = none ∧ m.stage2 = none ∧ m.stage3 = none))

/-- `storage_pg.get_orphaned_user_message`: the chronologically last message
of the conversation, if it is a user message. -/
def store_get_orphaned_user_message (st : Store) : Option MsgRow :=
  match st.msgs.getLast? with
  | none => none
  | some m => if m.role = "user" then some m else none

/-- `storage_pg.get_latest_assistant_message`: the latest assistant row
whose stage3 is NOT NULL. -/
def store_get_latest_assistant_message (st : Store) : Option MsgRow :=
  (st.msgs.filter (fun m => m.role = "assistant" ∧ m.stage3 ≠ none)).getLast?

/-! ## Status endpoint (main.py `get_conversation_status`). -/

/-- The JSON shape returned by the status endpoint (absent keys modelled as
`false` / `none`). -/
structure StatusResult where
  processing : Bool
  current_stage : Option String
  orphaned : Bool
  orphaned_message : Option MsgRow
  incomplete : Bool
  deriving DecidableEq, Repr

/-- Status result with everything off. -/
def statusIdle : StatusResult :=
  { processing := false, current_stage := none, orphaned := false,
    orphaned_message := none, incomplete := false }

/-- `main.get_conversation_status` for an owned conversation.  `active` is
the `_active_tasks` / `_active_status` registry entry (`some stage?` when a
task is registered).  With no registered task the code consults the store:
FIRST the orphaned-user-message check, THEN the latest completed assistant
message.  The `incomplete` branch tests the same `latest_assistant` value,
which the store query already filtered by `stage3 IS NOT NULL`, so it can
never fire. -/
def get_conversation_status (active : Option (Option String)) (st : Store) :
    StatusResult :=
  match active with
  | some stage =>
    { statusIdle with
      processing := true,
      current_stage := some (stage.getD "starting") }
  | none =>
    match store_get_orphaned_user_message st with
    | some m => { statusIdle with orphaned := true, orphaned_message := some m }
    | none =>
      match store_get_latest_assistant_message st with
      | some _ => statusIdle
      | none => statusIdle

/-! ## Success-path action trace of the background pipeline task
(main.py `_process_decision_request`, lines 1276-1534, error-free run).

The actions the task performs, in program order: queue `put`s (by event
type), the store writes, and the final sentinel.  Heartbeat events come from
companion tasks and are omitted; they do not reorder the task's own
actions. -/

inductive PipeAction where
  | addUserMessage
  | enqueue (event : String)
  | commitAnswer
  | saveContextSummary
  | updateTitle
  | enqueueSentinel
  deriving DecidableEq, Repr

/-- The trace of one error-free run, by the branch flags of the code:
`is_rerun` (skip the user-message insert and title task),
`enable_cross_review` / `enable_peer_review` (from the mode config),
`s1_nonempty` (stage-1 produced at least one response),
`title_spawned` (`is_first_message and not is_rerun`). -/
def pipelineSuccessTrace (is_rerun enable_cross enable_peer s1_nonempty
    title_spawned : Bool) : List PipeAction :=
  (if ¬is_rerun then [.addUserMessage] else []) ++
  [.enqueue "run_started", .enqueue "stage1_start", .enqueue "stage1_complete"] ++
  (if enable_cross ∧ s1_nonempty then
    [.enqueue "stage_preparing", .enqueue "stage1_5_start",
     .enqueue "stage1_5_complete"]
   else if ¬enable_cross then [.enqueue "stage1_5_skipped"] else []) ++
  (if enable_peer then
    [.enqueue "stage_preparing", .enqueue "stage2_start",
     .enqueue "stage2_complete"]
   else [.enqueue "stage2_skipped"]) ++
  [.enqueue "stage_preparing", .enqueue "stage3_start"] ++
  [.commitAnswer] ++
  [.enqueue "stage3_complete"] ++
  [.saveContextSummary] ++
  (if title_spawned then [.updateTitle, .enqueue "title_complete"] else []) ++
  [.enqueue "complete", .enqueueSentinel]

/-- Index of the first occurrence of an action in a trace. -/
def traceIdx (t : List PipeAction) (a : PipeAction) : Nat :=
  t.findIdx (fun x => x == a)

/-! ## Concrete instances used by the evaluation theorems. -/

/-- A moderator question of more than 100 characters. -/
def echoQuery : List Char :=
  strL "please review the plan for migrating our billing system to the new provider next quarter and tell me whether the team should proceed"

/-- A moderator response that repeats the question verbatim and then contains
the synthesis indicator `based on`, with fewer than prefix+500 characters. -/
def echoContent : List Char :=
  echoQuery ++ strL " based on"

/-- Rating text whose parsed order is `[Response A, Response B, Response C]`. -/
def aggRanking1 : List Char :=
  strL "FINAL RANKING:\n1. Response A\n2. Response B\n3. Response C"

/-- Rating text whose parsed order is `[Response B, Response A, Response C]`. -/
def aggRanking2 : List Char :=
  strL "FINAL RANKING:\n1. Response B\n2. Response A\n3. Response C"

/-- Rating text whose parsed order is `[Response A, Response C, Response B]`. -/
def aggRanking3 : List Char :=
  strL "FINAL RANKING:\n1. Response A\n2. Response C\n3. Response B"

/-- The label mapping Response A→m1, Response B→m2, Response C→m3. -/
def aggLabelToModel : List (List Char × List Char) :=
  [(strL "Response A", strL "m1"), (strL "Response B", strL "m2"),
   (strL "Response C", strL "m3")]

/-- A committed Question row. -/
def userRow (id : Nat) (q : String) : MsgRow :=
  { blankRow id "user" with content := some q }

/-- A fully committed Answer row (non-null stage1, stage2, stage3). -/
def fullAnswerRow (id : Nat) : MsgRow :=
  { blankRow id "assistant" with
    stage1 := some "[s1]", stage2 := some "[s2]", stage3 := some "{s3}" }

/-! ## Helper lemmas. -/

/-- An uppercase letter is not a digit (code points 65-90 vs 48-57). -/
theorem upper_not_digit (c : Char) (h : c.isUpper = true) : c.isDigit = false := by
  simp only [Char.isUpper, Bool.and_eq_true, decide_eq_true_eq, ge_iff_le,
    UInt32.le_def, BitVec.le_def] at h
  simp only [Char.isDigit, ge_iff_le, Bool.and_eq_false_iff,
    decide_eq_false_iff_not, not_le, UInt32.le_def, UInt32.lt_def,
    BitVec.le_def, BitVec.lt_def]
  right
  have h1 := h.1
  norm_num at h1 ⊢
  omega

/-! ## Claim theorems. -/

/-- C6: `reserve_credits_atomic` subtracts `n` and returns the remaining
balance exactly when the current balance is at least `n` (one conditional
update); otherwise the balance is unchanged and the failure carries
`required = n` and `available =` the current balance.  `refund_credits`
unconditionally adds its amount and returns the new balance. -/
theorem reserve_refund_semantics (uid : String) (b n : Nat) :
    (n ≤ b →
      reserve_credits_atomic [(uid, b)] uid n =
        ([(uid, b - n)], .ok (b - n))) ∧
    (b < n →
      reserve_credits_atomic [(uid, b)] uid n =
        ([(uid, b)], .insufficient n b)) ∧
    refund_credits [(uid, b)] uid n = ([(uid, b + n)], b + n) := by
  refine ⟨fun h => ?_, fun h => ?_, ?_⟩
  · simp [reserve_credits_atomic, sqlReserveUpdate, h]
  · simp [reserve_credits_atomic, sqlReserveUpdate, sqlSelectCredits,
      Nat.not_le.2 h]
  · simp [refund_credits, sqlRefundUpdate]

/-- Witness for C6 at balance 5 / 1 and amount 3. -/
theorem reserve_refund_semantics_witness :
    reserve_credits_atomic [("u", 5)] "u" 3 = ([("u", 2)], .ok 2) ∧
    reserve_credits_atomic [("u", 1)] "u" 3 = ([("u", 1)], .insufficient 3 1) ∧
    refund_credits [("u", 1)] "u" 3 = ([("u", 4)], 4) :=
  ⟨(reserve_refund_semantics "u" 5 3).1 (by decide),
   (reserve_refund_semantics "u" 1 3).2.1 (by decide),
   (reserve_refund_semantics "u" 1 3).2.2⟩

/-- C10: a mode string that is neither a `RUN_MODES` key nor a legacy alias
is not rejected: it is silently normalized to `decide_please`, so the request
is charged 2 credits and runs with the premium pool, the standard moderator
and peer review enabled (cross-review disabled). -/
theorem unknown_mode_aliased (m : String)
    (h1 : lookupKV RUN_MODES m = none)
    (h2 : lookupKV LEGACY_MODE_MAPPING m = none) :
    normalizeMode m = "decide_please" ∧
    (modeConfigOf m).credit_cost = 2 ∧
    (modeConfigOf m).enable_peer_review = true ∧
    (modeConfigOf m).enable_cross_review = false ∧
    (modeConfigOf m).decision_makers = PREMIUM_TIER ∧
    (modeConfigOf m).moderator_model = "anthropic/claude-sonnet-4.5" := by
  have hn : normalizeMode m = "decide_please" := by
    simp [normalizeMode, h1, h2]
  have hc : modeConfigOf m = (lookupKV RUN_MODES "decide_please").getD
      { enable_peer_review := true, enable_cross_review := false,
        label := "Decide Please", decision_makers := PREMIUM_TIER,
        moderator_model := "anthropic/claude-sonnet-4.5",
        context_mode := "standard", credit_cost := 2 } := by
    rw [modeConfigOf, hn]
  rw [hc]
  refine ⟨hn, ?_, ?_, ?_, ?_, ?_⟩ <;> decide

/-- Witness for C10 at the unknown mode string `turbo`. -/
theorem unknown_mode_aliased_witness :
    normalizeMode "turbo" = "decide_please" ∧
    (modeConfigOf "turbo").credit_cost = 2 ∧
    (modeConfigOf "turbo").enable_peer_review = true ∧
    (modeConfigOf "turbo").enable_cross_review = false ∧
    (modeConfigOf "turbo").decision_makers = PREMIUM_TIER ∧
    (modeConfigOf "turbo").moderator_model = "anthropic/claude-sonnet-4.5" :=
  unknown_mode_aliased "turbo" (by decide) (by decide)

/-- C1: evaluation of the request credit flow on a balance of 10 in mode
`decide_please` (cost 2).  With an attachment the reservation is 3 but the
FAILED path refunds only 2, leaving 9 instead of the pre-request 10; with an
unlimited role nothing is reserved yet the FAILED path still refunds 2,
leaving 12; only the attachment-free non-bypassed FAILED run restores 10; a
successful run keeps the reservation (8). -/
theorem credit_flow_refund_divergence :
    submit_credit_flow "owner" 10 false true "decide_please" true = .ran 9 ∧
    submit_credit_flow "owner" 10 true false "decide_please" true = .ran 12 ∧
    submit_credit_flow "owner" 10 false false "decide_please" true = .ran 10 ∧
    submit_credit_flow "owner" 10 false false "decide_please" false = .ran 8 := by
  decide

/-- C2 counterexample: the transcript store itself exposes an
allocate-then-fill surface.  Starting from a store holding one Question,
the committed writes `create_pending_assistant_message` followed by
`update_assistant_message_stage(..., "stage1", ...)` leave an Answer row
with non-null `stage1` and null `stage3`, and `get_conversation` returns
that partial Answer. -/
theorem placeholder_partial_answer_counterexample :
    (let st1 := store_add_user_message { nextId := 0, msgs := [] } "q"
     let pending := store_create_pending_assistant_message st1
     let st2 := store_update_assistant_message_stage pending.1 pending.2
       "stage1" "[s1]"
     ∃ m ∈ st2.msgs, m.role = "assistant" ∧ m.stage1 ≠ none ∧
       m.stage3 = none ∧ m ∈ store_get_conversation_messages st2) := by
  decide

/-- C2 amended: the atomic commit path only ever adds fully formed Answers
(every row it creates carries the given non-null `stage3`), and the startup
cleanup removes every Answer with null `stage3`; but the store additionally
exposes `add_assistant_message`, `create_pending_assistant_message` and
`update_assistant_message_stage`, so the atomic commit is not the only
Answer-creating operation and a committed partial Answer is representable
(and returned by reads) until cleanup runs. -/
theorem commit_atomicity_amended (st : Store) (s1 : String)
    (s15 : Option String) (s2 s3 mode : String) (ir : Bool)
    (ri : Option String) (pm : Option Nat) :
    (∀ m ∈ (store_add_assistant_message_complete st s1 s15 s2 s3 mode
        ir ri pm).1.msgs, m ∈ st.msgs ∨ m.stage3 = some s3) ∧
    (∀ m ∈ (store_cleanup_incomplete_messages st).1.msgs,
      m.role = "assistant" → m.stage3 ≠ none) := by
  constructor
  · intro m hm
    simp only [store_add_assistant_message_complete, List.mem_append,
      List.mem_singleton] at hm
    rcases hm with h | h
    · exact .inl h
    · subst h
      exact .inr rfl
  · intro m hm hr
    simp only [store_cleanup_incomplete_messages, List.mem_filter,
      decide_eq_true_eq, Decidable.not_and_iff_or_not, not_not] at hm
    rcases hm.2 with h | h
    · exact absurd hr h
    · exact h

/-- Witness for C2 amended: the row committed into an empty store has the
given `stage3`, and the complete Answer kept by cleanup has non-null
`stage3`. -/
theorem commit_atomicity_amended_witness :
    ({ blankRow 0 "assistant" with
        stage1 := some "[s1]", stage2 := some "[s2]", stage3 := some "{s3}",
        mode := some "standard" } ∈ ({ nextId := 0, msgs := [] } : Store).msgs ∨
      ({ blankRow 0 "assistant" with
        stage1 := some "[s1]", stage2 := some "[s2]", stage3 := some "{s3}",
        mode := some "standard" } : MsgRow).stage3 = some "{s3}") ∧
    (fullAnswerRow 1).stage3 ≠ none :=
  ⟨(commit_atomicity_amended { nextId := 0, msgs := [] } "[s1]" none "[s2]"
      "{s3}" "standard" false none none).1 _ (by decide),
   (commit_atomicity_amended
      { nextId := 2, msgs := [userRow 0 "q", fullAnswerRow 1] } "x" none "x"
      "x" "standard" false none none).2 (fullAnswerRow 1) (by decide) rfl⟩

/-- C5 counterexample: in the quick-mode success trace the atomic commit
occurs strictly BEFORE the `stage3_complete` event is enqueued, so the
claimed ordering (commit strictly after `stage3_complete`) is false. -/
theorem commit_ordering_counterexample :
    PipeAction.commitAnswer ∈ pipelineSuccessTrace false false false true true ∧
    PipeAction.enqueue "stage3_complete" ∈
      pipelineSuccessTrace false false false true true ∧
    traceIdx (pipelineSuccessTrace false false false true true) .commitAnswer <
      traceIdx (pipelineSuccessTrace false false false true true)
        (.enqueue "stage3_complete") ∧
    ¬ traceIdx (pipelineSuccessTrace false false false true true)
        (.enqueue "stage3_complete") <
      traceIdx (pipelineSuccessTrace false false false true true)
        .commitAnswer := by
  decide

/-- C5 amended: in every error-free run of the background pipeline the
atomic transcript commit happens exactly once, strictly BEFORE the
`stage3_complete` event is enqueued, and the `stage3_complete` event is
enqueued strictly before the `complete` event. -/
theorem commit_ordering_amended (ir ec ep s1 ts : Bool) :
    (let t := pipelineSuccessTrace ir ec ep s1 ts
     t.count .commitAnswer = 1 ∧
     traceIdx t .commitAnswer < traceIdx t (.enqueue "stage3_complete") ∧
     traceIdx t (.enqueue "stage3_complete") <
       traceIdx t (.enqueue "complete")) := by
  cases ir <;> cases ec <;> cases ep <;> cases s1 <;> cases ts <;> decide

/-- C8 counterexample: with no registered task, a conversation whose
chronologically last message is a Question following a fully committed
Answer is reported `orphaned`, not the claimed plain `{processing: false}`:
the status endpoint consults the orphan check before the last-Answer
check. -/
theorem status_orphan_first_counterexample :
    (let st : Store :=
      { nextId := 3, msgs := [userRow 0 "q1", fullAnswerRow 1, userRow 2 "q2"] }
     (get_conversation_status none st).processing = false ∧
     (get_conversation_status none st).orphaned = true ∧
     (get_conversation_status none st).orphaned_message =
       some (userRow 2 "q2")) := by
  decide

/-- C8 amended: with no registered task the status endpoint consults the
store in the order orphan-check FIRST, then last-committed-Answer: whenever
the chronologically last message is a Question it returns
`{processing: false, orphaned: true}` with that message (even when a fully
committed Answer precedes it), and only when the last message is not a
Question (or the conversation is empty) does it return plain
`{processing: false}`. -/
theorem status_consultation_order_amended (st : Store) :
    (∀ m, st.msgs.getLast? = some m → m.role = "user" →
      get_conversation_status none st =
        { statusIdle with orphaned := true, orphaned_message := some m }) ∧
    (∀ m, st.msgs.getLast? = some m → m.role ≠ "user" →
      get_conversation_status none st = statusIdle) ∧
    (st.msgs = [] → get_conversation_status none st = statusIdle) := by
  refine ⟨fun m hl hr => ?_, fun m hl hr => ?_, fun h => ?_⟩
  · simp [get_conversation_status, store_get_orphaned_user_message, hl, hr]
  · simp only [get_conversation_status, store_get_orphaned_user_message, hl,
      if_neg hr]
    cases store_get_latest_assistant_message st <;> rfl
  · simp only [get_conversation_status, store_get_orphaned_user_message, h,
      List.getLast?_nil]
    cases store_get_latest_assistant_message st <;> rfl

/-- Witness for C8 amended at three concrete conversations. -/
theorem status_consultation_order_amended_witness :
    get_conversation_status none
        { nextId := 1, msgs := [userRow 0 "q"] } =
      { statusIdle with orphaned := true, orphaned_message := some (userRow 0 "q") } ∧
    get_conversation_status none
        { nextId := 2, msgs := [userRow 0 "q", fullAnswerRow 1] } = statusIdle ∧
    get_conversation_status none { nextId := 0, msgs := [] } = statusIdle :=
  ⟨(status_consultation_order_amended
      { nextId := 1, msgs := [userRow 0 "q"] }).1 (userRow 0 "q")
      (by decide) rfl,
   (status_consultation_order_amended
      { nextId := 2, msgs := [userRow 0 "q", fullAnswerRow 1] }).2.1
      (fullAnswerRow 1) (by decide) (by decide),
   (status_consultation_order_amended { nextId := 0, msgs := [] }).2.2 rfl⟩

set_option maxRecDepth 8000 in
/-- C3 counterexample: a question of more than 100 characters, echoed
verbatim by the moderator with the synthesis indicator `based on` inside the
first 500 characters, but with total length at most prefix+500: the synthesis
indicator alone does NOT withdraw the echo — the code requires the
substantial-content condition as well (`and`, not the claimed `or`). -/
theorem echo_withdrawal_counterexample :
    100 < echoQuery.length ∧
    echoPrefixMatch echoQuery echoContent = true ∧
    hasSynthesisMarkers echoContent = true ∧
    ¬ echoContent.length > (queryStart echoQuery).length + 500 ∧
    echoDetectedAfterWithdrawal echoQuery echoContent = true := by
  decide

/-- C3 amended: the apparent echo is withdrawn (the output treated as clean)
exactly when the question is short (≤ 100 characters), or the stripped
response does not start with the stripped 80-character question prefix, or
BOTH of the following hold: a synthesis indicator occurs in the first 500
characters AND the content is longer than the stripped query prefix plus 500
characters.  Either condition alone does not suffice. -/
theorem echo_withdrawal_amended (q c : List Char) :
    echoDetectedAfterWithdrawal q c = false ↔
      (q.length ≤ 100 ∨ echoPrefixMatch q c = false ∨
        (hasSynthesisMarkers c = true ∧
          (queryStart q).length + 500 < c.length)) := by
  unfold echoDetectedAfterWithdrawal
  by_cases h1 : 100 < q.length <;>
    by_cases h4 : (queryStart q).length + 500 < c.length <;>
      cases h2 : echoPrefixMatch q c <;>
        cases h3 : hasSynthesisMarkers c <;>
          simp_all

set_option maxRecDepth 100000 in
/-- C9 counterexample: for a stage-3 response of 801 identical characters
the derived `verdict_summary` is the 800-character truncation plus `"..."`,
i.e. 803 characters — more than the claimed 800. -/
theorem verdict_summary_length_counterexample :
    ¬ (context_summary_verdict (List.replicate 801 'a')).length ≤ 800 ∧
    (context_summary_verdict (List.replicate 801 'a')).length = 803 := by
  decide

/-- C9 amended: for every possible moderator stage-3 response text, the
`verdict_summary` field of the derived context summary packet is at most
803 characters long (800 plus the three-character ellipsis appended on
truncation). -/
theorem verdict_summary_length_amended (resp : List Char) :
    (context_summary_verdict resp).length ≤ 803 := by
  unfold context_summary_verdict extract_verdict_summary
  have hd : (strL "...").length = 3 := rfl
  simp only []
  split_ifs with h1 h2 h3
  · simp only [List.length_append, List.length_take, hd]
    omega
  · omega
  · simp only [List.length_append, List.length_take, hd]
    omega
  · omega

/-- Helper: full evaluation of `calculate_aggregate_rankings` on the P5
scenario — parsed orders `[[A,B,C],[B,A,C],[A,C,B]]` under
`{A↦m1, B↦m2, C↦m3}`.  The 1-based positions are m1:[1,2,1], m2:[2,1,3],
m3:[3,3,2], so the averages are 4/3 → 1.33, 6/3 → 2 and 8/3 → 2.67. -/
theorem aggEval :
    calculate_aggregate_rankings [aggRanking1, aggRanking2, aggRanking3]
        aggLabelToModel =
      [⟨strL "m1", 133 / 100, 3⟩, ⟨strL "m2", 2, 3⟩,
       ⟨strL "m3", 267 / 100, 3⟩] := by
  have hpos : [aggRanking1, aggRanking2, aggRanking3].foldl
      (fun acc text => recordParsedAux aggLabelToModel 1 acc
        (parse_ranking_from_text text)) [] =
      [(strL "m1", [1, 2, 1]), (strL "m2", [2, 1, 3]),
       (strL "m3", [3, 3, 2])] := by
    decide
  unfold calculate_aggregate_rankings
  rw [hpos]
  simp only [List.filterMap, List.isEmpty]
  norm_num [sortByRank, insertByRank, roundPy2, List.foldl]

/-- C4 counterexample: on the P5 scenario the aggregate entry for m2 has
average rank 2.0 (positions 2, 1, 3), not the claimed 1.67, so the claimed
output `[(m1,1.33),(m2,1.67),(m3,2.67)]` is not what the code returns. -/
theorem aggregate_rankings_counterexample :
    (calculate_aggregate_rankings [aggRanking1, aggRanking2, aggRanking3]
        aggLabelToModel).map (fun e => (e.model, e.average_rank)) ≠
      [(strL "m1", 133 / 100), (strL "m2", 167 / 100),
       (strL "m3", 267 / 100)] := by
  rw [aggEval]
  intro h
  simp only [List.map, List.cons.injEq, Prod.mk.injEq] at h
  have h2 := h.2.1.2
  norm_num at h2

/-- C4 amended: on the P5 scenario `calculate_aggregate_rankings` returns,
per model, the rounded average of the 1-based rank positions across all
raters — (m1, 1.33), (m2, 2.0), (m3, 2.67), each over 3 rankings — sorted
ascending by average rank. -/
theorem aggregate_rankings_amended :
    calculate_aggregate_rankings [aggRanking1, aggRanking2, aggRanking3]
        aggLabelToModel =
      [⟨strL "m1", 133 / 100, 3⟩, ⟨strL "m2", 2, 3⟩,
       ⟨strL "m3", 267 / 100, 3⟩] :=
  aggEval

set_option maxHeartbeats 2000000 in
/-- C7: the ranking-parser contract (P4).  For text containing the
`FINAL RANKING:` header followed by a numbered list
`1. Response X / 2. Response Y / 3. Response Z`, the parser returns
`[Response X, Response Y, Response Z]`; with the header but no numbered
matches it returns the `Response <letter>` occurrences of the section after
the header in order; without the header it returns the occurrences of the
whole text in order; for empty text it returns `[]`. -/
theorem parse_ranking_contract (x y z : Char) (hx : x.isUpper = true)
    (hy : y.isUpper = true) (hz : z.isUpper = true) :
    parse_ranking_from_text
        (strL "Response A is detailed while Response B is concise.\n\nFINAL RANKING:\n1. Response " ++
          [x] ++ strL "\n2. Response " ++ [y] ++ strL "\n3. Response " ++
          [z] ++ strL "\n") =
      [strL "Response " ++ [x], strL "Response " ++ [y],
       strL "Response " ++ [z]] ∧
    parse_ranking_from_text
        (strL "Some discussion.\nFINAL RANKING:\nI prefer Response " ++ [x] ++
          strL ", then Response " ++ [y] ++ strL ", then Response " ++ [z] ++
          strL ".") =
      [strL "Response " ++ [x], strL "Response " ++ [y],
       strL "Response " ++ [z]] ∧
    parse_ranking_from_text
        (strL "The best is Response " ++ [x] ++ strL ", then Response " ++
          [y] ++ strL " and Response " ++ [z] ++ strL ".") =
      [strL "Response " ++ [x], strL "Response " ++ [y],
       strL "Response " ++ [z]] ∧
    parse_ranking_from_text [] = [] := by
  refine ⟨?_, ?_, ?_, rfl⟩ <;>
    simp [parse_ranking_from_text, containsSub, List.isPrefixOf, findResp,
      findRespAux, respMatch, hx, hy, hz, strL, finalRankingHeader, pySplit,
      pySplitAux, findNumbered, findNumberedAux, numberedMatch, searchResp,
      upper_not_digit x hx, upper_not_digit y hy, upper_not_digit z hz,
      isPyWS]

/-- Witness for C7 at the letters X, Y, Z. -/
theorem parse_ranking_contract_witness :
    parse_ranking_from_text
        (strL "Response A is detailed while Response B is concise.\n\nFINAL RANKING:\n1. Response " ++
          ['X'] ++ strL "\n2. Response " ++ ['Y'] ++ strL "\n3. Response " ++
          ['Z'] ++ strL "\n") =
      [strL "Response " ++ ['X'], strL "Response " ++ ['Y'],
       strL "Response " ++ ['Z']] ∧
    parse_ranking_from_text
        (strL "Some discussion.\nFINAL RANKING:\nI prefer Response " ++ ['X'] ++
          strL ", then Response " ++ ['Y'] ++ strL ", then Response " ++ ['Z'] ++
          strL ".") =
      [strL "Response " ++ ['X'], strL "Response " ++ ['Y'],
       strL "Response " ++ ['Z']] ∧
    parse_ranking_from_text
        (strL "The best is Response " ++ ['X'] ++ strL ", then Response " ++
          ['Y'] ++ strL " and Response " ++ ['Z'] ++ strL ".") =
      [strL "Response " ++ ['X'], strL "Response " ++ ['Y'],
       strL "Response " ++ ['Z']] ∧
    parse_ranking_from_text [] = [] :=
  parse_ranking_contract 'X' 'Y' 'Z' (by decide) (by decide) (by decide)

end DecidePlease
